import Mathlib

set_option maxRecDepth 100000
set_option exponentiation.threshold 4096

namespace DadJokeBot

/-!
# twitter-dadjoke-bot: the webhook handlers of `main.go`

Go strings are modelled by Lean strings, `[]byte(s)` by the list of the bytes of the
UTF-8 encoding of `s`, each byte a natural number below 256.  The standard-library
functions the handlers call (`crypto/sha256`, `crypto/hmac`, `encoding/base64`,
`encoding/json`, `regexp`, `net/http`, `net/url`) are modelled by executable definitions.
A body is given as the JSON text it holds; `json.Unmarshal` is modelled on that text with
its own failures: the limit on nesting, the types of the target, and the number literals
that no `float64` or `int64` holds.
The lines that only log (`log.Println`, `fmt.Println`) are left out: they write to the
standard streams of the process, neither to the response nor to a remote service.
-/

/-! ## crypto/sha256, crypto/hmac, encoding/base64 -/

/-- UTF-8 encoding of one character. -/
def utf8EncodeChar (c : Char) : List Nat :=
  let n := c.toNat
  if n < 0x80 then [n]
  else if n < 0x800 then [0xC0 + n / 0x40, 0x80 + n % 0x40]
  else if n < 0x10000 then [0xE0 + n / 0x1000, 0x80 + n / 0x40 % 0x40, 0x80 + n % 0x40]
  else [0xF0 + n / 0x40000, 0x80 + n / 0x1000 % 0x40, 0x80 + n / 0x40 % 0x40, 0x80 + n % 0x40]

/-- Conversion `[]byte(s)`. -/
def bytesOf (s : String) : List Nat :=
  s.data.flatMap utf8EncodeChar

/-- Rotation of a 32-bit word to the right. -/
def rotr32 (x n : Nat) : Nat :=
  ((x >>> n) ||| (x <<< (32 - n))) % 2 ^ 32

/-- Addition of 32-bit words. -/
def add32 (x y : Nat) : Nat := (x + y) % 2 ^ 32

/-- The round constants of SHA-256. -/
def sha256K : List Nat :=
  [0x428a2f98, 0x71374491, 0xb5c0fbcf, 0xe9b5dba5, 0x3956c25b, 0x59f111f1, 0x923f82a4, 0xab1c5ed5,
   0xd807aa98, 0x12835b01, 0x243185be, 0x550c7dc3, 0x72be5d74, 0x80deb1fe, 0x9bdc06a7, 0xc19bf174,
   0xe49b69c1, 0xefbe4786, 0x0fc19dc6, 0x240ca1cc, 0x2de92c6f, 0x4a7484aa, 0x5cb0a9dc, 0x76f988da,
   0x983e5152, 0xa831c66d, 0xb00327c8, 0xbf597fc7, 0xc6e00bf3, 0xd5a79147, 0x06ca6351, 0x14292967,
   0x27b70a85, 0x2e1b2138, 0x4d2c6dfc, 0x53380d13, 0x650a7354, 0x766a0abb, 0x81c2c92e, 0x92722c85,
   0xa2bfe8a1, 0xa81a664b, 0xc24b8b70, 0xc76c51a3, 0xd192e819, 0xd6990624, 0xf40e3585, 0x106aa070,
   0x19a4c116, 0x1e376c08, 0x2748774c, 0x34b0bcb5, 0x391c0cb3, 0x4ed8aa4a, 0x5b9cca4f, 0x682e6ff3,
   0x748f82ee, 0x78a5636f, 0x84c87814, 0x8cc70208, 0x90befffa, 0xa4506ceb, 0xbef9a3f7, 0xc67178f2]

/-- The initial hash value of SHA-256. -/
def sha256Init : List Nat :=
  [0x6a09e667, 0xbb67ae85, 0x3c6ef372, 0xa54ff53a, 0x510e527f, 0x9b05688c, 0x1f83d9ab, 0x5be0cd19]

/-- Big-endian 32-bit words of a byte string (length a multiple of four). -/
def beWords : List Nat → List Nat
  | a :: b :: c :: d :: rest => ((((a % 256) * 256 + b % 256) * 256 + c % 256) * 256 + d % 256) :: beWords rest
  | _ => []

/-- Extends the schedule: `ws` holds the sixteen most recent words, oldest first. -/
def scheduleExt : Nat → List Nat → List Nat
  | 0, _ => []
  | n + 1, ws =>
    let w15 := ws.getD 1 0
    let w2 := ws.getD 14 0
    let s0 := rotr32 w15 7 ^^^ rotr32 w15 18 ^^^ (w15 >>> 3)
    let s1 := rotr32 w2 17 ^^^ rotr32 w2 19 ^^^ (w2 >>> 10)
    let w := add32 (add32 (add32 (ws.getD 0 0) s0) (ws.getD 9 0)) s1
    w :: scheduleExt n (ws.drop 1 ++ [w])

/-- The sixty-four words of the message schedule of a block. -/
def schedule (block : List Nat) : List Nat :=
  let w16 := beWords block
  w16 ++ scheduleExt 48 w16

/-- One round of the compression function on the working variables `a` to `h`. -/
def sha256Round (st : List Nat) (kw : Nat × Nat) : List Nat :=
  match st with
  | [a, b, c, d, e, f, g, h] =>
    let s1 := rotr32 e 6 ^^^ rotr32 e 11 ^^^ rotr32 e 25
    let ch := (e &&& f) ^^^ ((e ^^^ 0xffffffff) &&& g)
    let t1 := add32 (add32 (add32 (add32 h s1) ch) kw.1) kw.2
    let s0 := rotr32 a 2 ^^^ rotr32 a 13 ^^^ rotr32 a 22
    let maj := (a &&& b) ^^^ (a &&& c) ^^^ (b &&& c)
    let t2 := add32 s0 maj
    [add32 t1 t2, a, b, c, add32 d t1, e, f, g]
  | _ => st

/-- The compression function: the hash value after one more block. -/
def sha256Block (h : List Nat) (block : List Nat) : List Nat :=
  List.zipWith add32 h ((sha256K.zip (schedule block)).foldl sha256Round h)

/-- The `width` low bytes of `x`, most significant first. -/
def beBytes (width x : Nat) : List Nat :=
  (List.range width).reverse.map fun i => x / 256 ^ i % 256

/-- Padding of a message: the byte `0x80`, zeros up to 56 modulo 64, and the length
in bits on eight bytes. -/
def sha256Pad (msg : List Nat) : List Nat :=
  let zeros := (55 + 64 - msg.length % 64) % 64
  msg ++ 0x80 :: List.replicate zeros 0 ++ beBytes 8 (8 * msg.length)

/-- The blocks of 64 bytes of a padded message; the fuel is its length. -/
def blocksOf : Nat → List Nat → List (List Nat)
  | 0, _ => []
  | n + 1, bs => if bs.isEmpty then [] else bs.take 64 :: blocksOf n (bs.drop 64)

/-- Function `sha256.Sum256`: the digest of 32 bytes. -/
def sha256 (msg : List Nat) : List Nat :=
  let padded := sha256Pad msg
  ((blocksOf padded.length padded).foldl sha256Block sha256Init).flatMap (beBytes 4)

/-- The digest `hmac.New(sha256.New, key)` gives after `Write(msg)`. -/
def hmacSha256 (key msg : List Nat) : List Nat :=
  let k0 := if key.length > 64 then sha256 key else key
  let k := k0 ++ List.replicate (64 - k0.length) 0
  let ipad := k.map (· ^^^ 0x36)
  let opad := k.map (· ^^^ 0x5c)
  sha256 (opad ++ sha256 (ipad ++ msg))

/-- The alphabet of `base64.StdEncoding`. -/
def base64Alphabet : List Char :=
  "ABCDEFGHIJKLMNOPQRSTUVWXYZabcdefghijklmnopqrstuvwxyz0123456789+/".data

/-- The character of the six low bits of `i`. -/
def b64Char (i : Nat) : Char := base64Alphabet.getD (i % 64) 'A'

/-- Standard padded base64, `base64.StdEncoding.EncodeToString`. -/
def base64Encode : List Nat → List Char
  | a :: b :: c :: rest =>
    let v := (a % 256) * 65536 + (b % 256) * 256 + c % 256
    b64Char (v / 262144) :: b64Char (v / 4096) :: b64Char (v / 64) :: b64Char v :: base64Encode rest
  | [a, b] =>
    let v := (a % 256) * 65536 + (b % 256) * 256
    [b64Char (v / 262144), b64Char (v / 4096), b64Char (v / 64), '=']
  | [a] =>
    let v := (a % 256) * 65536
    [b64Char (v / 262144), b64Char (v / 4096), '=', '=']
  | [] => []

/-! ## encoding/json: Marshal of a string -/

/-- The lower-case hexadecimal digit of the four low bits of `n`. -/
def hexDigit (n : Nat) : Char := "0123456789abcdef".data.getD (n % 16) '0'

/-- Characters `json.Marshal` copies unchanged (its `htmlSafeSet`, and every
character outside ASCII other than U+2028 and U+2029). -/
def jsonSafe (c : Char) : Bool :=
  0x20 ≤ c.toNat && c != '"' && c != '\\' && c != '<' && c != '>' && c != '&' &&
    c.toNat != 0x2028 && c.toNat != 0x2029

/-- The escape `json.Marshal` writes for one character of a string (backspace and form
feed as of Go 1.22; earlier releases write them as `\u0008` and `\u000c`). -/
def escapeChar (c : Char) : List Char :=
  if jsonSafe c then [c]
  else if c = '"' then ['\\', '"']
  else if c = '\\' then ['\\', '\\']
  else if c.toNat = 0x08 then ['\\', 'b']
  else if c.toNat = 0x0c then ['\\', 'f']
  else if c = '\n' then ['\\', 'n']
  else if c = '\r' then ['\\', 'r']
  else if c = '\t' then ['\\', 't']
  else if c.toNat = 0x2028 then "\\u2028".data
  else if c.toNat = 0x2029 then "\\u2029".data
  else ['\\', 'u', '0', '0', hexDigit (c.toNat / 16), hexDigit c.toNat]

/-- A Go string as `json.Marshal` writes it (HTML escaping on). -/
def encodeString (s : String) : String :=
  String.mk ('"' :: s.data.flatMap escapeChar ++ ['"'])

/-- Result of `json.Marshal(map[string]interface{}{key: value})` for a string `value`. -/
def marshalStringMap (key value : String) : String :=
  "\x7b" ++ encodeString key ++ ":" ++ encodeString value ++ "\x7d"

/-! ## net/http: the response writer and the request -/

/-- An `http.Header` or `url.Values` with one value per key, in insertion order. -/
abbrev Fields := List (String × String)

/-- Method `Set` of `http.Header` and `url.Values`. -/
def Fields.set (h : Fields) (key value : String) : Fields :=
  h.filter (fun kv => kv.1 != key) ++ [(key, value)]

/-- State of an `http.ResponseWriter`: the header map, the status once it is written
(with the header as it was then), and the body written so far.  Where the handler sets
no `Content-Type` the server derives one from the body. -/
structure ResponseWriter where
  header : Fields := []
  status : Option Nat := none
  sentHeader : Fields := []
  body : String := ""
deriving DecidableEq, Repr

namespace ResponseWriter

/-- Call `rw.Header().Set(key, value)`. -/
def setHeader (rw : ResponseWriter) (key value : String) : ResponseWriter :=
  { rw with header := rw.header.set key value }

/-- Method `WriteHeader`: the first call fixes the status and the header sent. -/
def WriteHeader (rw : ResponseWriter) (code : Nat) : ResponseWriter :=
  match rw.status with
  | some _ => rw
  | none => { rw with status := some code, sentHeader := rw.header }

/-- Method `Write`: writes the status 200 first when none is written yet. -/
def Write (rw : ResponseWriter) (b : String) : ResponseWriter :=
  let rw1 := rw.WriteHeader 200
  { rw1 with body := rw1.body ++ b }

end ResponseWriter

/-- Function `http.Error`. -/
def httpError (rw : ResponseWriter) (error : String) (code : Nat) : ResponseWriter :=
  let rw1 := { rw with header := rw.header.filter (fun kv => kv.1 != "Content-Length") }
  let rw2 := rw1.setHeader "Content-Type" "text/plain; charset=utf-8"
  let rw3 := rw2.setHeader "X-Content-Type-Options" "nosniff"
  (rw3.WriteHeader code).Write (error ++ "\n")

/-- Value of `r.URL.Query()[key]`: the values of `key` in the order of the query;
`query` lists the decoded `key=value` pairs of the URL in order. -/
def queryValues (query : List (String × String)) (key : String) : List String :=
  (query.filter (fun kv => kv.1 == key)).map (fun kv => kv.2)

/-! ## crcHandler -/

/-- Handler `crcHandler` of `GET /webhook/twitter`; `getenv` is `os.Getenv` and
`query` the decoded pairs of `r.URL.Query()`. -/
def crcHandler (getenv : String → String) (query : List (String × String)) : ResponseWriter :=
  let rw : ResponseWriter := {}
  let crcToken := queryValues query "crc_token"
  if crcToken.length < 1 then
    (rw.WriteHeader 400).Write "no crc token given"
  else
    let h := hmacSha256 (bytesOf (getenv "TWITTER_CONSUMER_SECRET")) (bytesOf (crcToken.headD ""))
    let sha := String.mk (base64Encode h)
    let responseToken := "sha256=" ++ sha
    let js := marshalStringMap "response_token" responseToken
    (rw.setHeader "Content-Type" "application/json").Write js

/-- The JSON content type header as `crcHandler` sets it. -/
def jsonHeader : Fields := [("Content-Type", "application/json")]

/-! ## encoding/json: Unmarshal -/

/-- A parsed JSON text.  A number literal without fraction and exponent is `int`;
any other number literal is `float`, of value `mantissa * 10 ^ exponent`. -/
inductive Json where
  | null
  | bool (b : Bool)
  | int (n : Int)
  | float (mantissa exponent : Int)
  | str (s : String)
  | arr (xs : List Json)
  | obj (kvs : List (String × Json))

/-- The Go types the two decoded structs are built from; a struct lists its fields
by their `json` tag. -/
inductive GoType where
  | string | bool | int64 | int | any
  | slice (elem : GoType)
  | struct (fields : List (String × GoType))

/-- A Go value of a `GoType`.  A slice carries, after its elements, the elements of
its backing array beyond its length. -/
inductive Val where
  | string (s : String)
  | bool (b : Bool)
  | int (n : Int)
  | any (j : Json)
  | slice (elems spare : List Val)
  | struct (fields : List (String × Val))

/-- Nesting depth the syntax check of `json.Unmarshal` accepts (`maxNestingDepth`). -/
def maxNestingDepth : Nat := 10000

mutual
/-- Number of arrays and objects open at the deepest point of a JSON text. -/
def Json.depth : Json → Nat
  | .arr xs => depthList xs + 1
  | .obj kvs => depthFields kvs + 1
  | _ => 0
/-- Largest depth of the elements of an array. -/
def depthList : List Json → Nat
  | [] => 0
  | x :: xs => max x.depth (depthList xs)
/-- Largest depth of the values of an object. -/
def depthFields : List (String × Json) → Nat
  | [] => 0
  | (_, x) :: kvs => max x.depth (depthFields kvs)
end

/-- Function `checkValid`, the syntax check `json.Unmarshal` starts with, on a body that
is a JSON text by the grammar (`none` when it is not): the nesting has a limit. -/
def checkValid (body : Option Json) : Option Json :=
  match body with
  | none => none
  | some j => if j.depth ≤ maxNestingDepth then some j else none

/-- The least magnitude `strconv.ParseFloat` rounds beyond the largest `float64`. -/
def float64Bound : Nat := 2 ^ 1024 - 2 ^ 970

/-- Whether `strconv.ParseFloat(s, 64)` returns a range error on the number literal of
value `mantissa * 10 ^ exponent`. -/
def overflowsFloat64 (mantissa exponent : Int) : Bool :=
  if 0 ≤ exponent then float64Bound ≤ mantissa.natAbs * 10 ^ exponent.toNat
  else float64Bound * 10 ^ (-exponent).toNat ≤ mantissa.natAbs

mutual
/-- Whether a JSON value decodes into an `interface{}` without error: every number
literal in it converts to a `float64`. -/
def Json.interfaceOk : Json → Bool
  | .int n => !overflowsFloat64 n 0
  | .float mantissa exponent => !overflowsFloat64 mantissa exponent
  | .arr xs => interfaceOkList xs
  | .obj kvs => interfaceOkFields kvs
  | _ => true
/-- Whether every element of an array decodes into an `interface{}`. -/
def interfaceOkList : List Json → Bool
  | [] => true
  | x :: xs => x.interfaceOk && interfaceOkList xs
/-- Whether every value of an object decodes into an `interface{}`. -/
def interfaceOkFields : List (String × Json) → Bool
  | [] => true
  | (_, x) :: kvs => x.interfaceOk && interfaceOkFields kvs
end

mutual
/-- The zero value of a type. -/
def zero : GoType → Val
  | .string => .string ""
  | .bool => .bool false
  | .int64 => .int 0
  | .int => .int 0
  | .any => .any .null
  | .slice _ => .slice [] []
  | .struct fs => .struct (zeroFields fs)
def zeroFields : List (String × GoType) → List (String × Val)
  | [] => []
  | (n, t) :: r => (n, zero t) :: zeroFields r
end

/-- Case folding of field names: `encoding/json` matches a key to a field by exact
name, else by equality under Unicode simple case folding; for the ASCII names of the
structs here the folding classes are the two cases of a letter, the Kelvin sign with
`k` and the long s with `s`. -/
def foldChar (c : Char) : Char :=
  if 'a' ≤ c ∧ c ≤ 'z' then Char.ofNat (c.toNat - 32)
  else if c.toNat = 0x212A then 'K'
  else if c.toNat = 0x17F then 'S'
  else c

/-- A name with every character folded. -/
def foldName (s : String) : List Char := s.data.map foldChar

/-- The field a key of a JSON object decodes into: the field of that name, else the
first field equal to the key under case folding. -/
def findField (fs : List (String × GoType)) (key : String) : Option (String × GoType) :=
  match fs.find? (fun f => f.1 == key) with
  | some f => some f
  | none => fs.find? (fun f => foldName f.1 == foldName key)

/-- The value of the field `name`. -/
def getField (vals : List (String × Val)) (name : String) (dflt : Val) : Val :=
  match vals.find? (fun f => f.1 == name) with
  | some f => f.2
  | none => dflt

/-- The fields with the value of the field `name` replaced. -/
def setField (vals : List (String × Val)) (name : String) (v : Val) : List (String × Val) :=
  vals.map fun f => if f.1 == name then (f.1, v) else f

mutual
/-- Decoding of a JSON value into a Go value that holds `v` (`json.Unmarshal` after
the syntax check); `none` when Unmarshal returns an error.  `null` leaves strings,
numbers, booleans and structs as they are and sets interfaces and slices to nil; the
value of a key that matches no field is skipped; `int` is the one of 64 bits.  An
array is decoded element by element into the backing array of the slice, and the keys
of an object in their order, as the decoder does when a key occurs more than once. -/
def decode : GoType → Val → Json → Option Val
  | .any, _, j => if j.interfaceOk then some (.any j) else none
  | .slice _, _, .null => some (.slice [] [])
  | _, v, .null => some v
  | .string, _, .str s => some (.string s)
  | .bool, _, .bool b => some (.bool b)
  | .int64, _, .int n => if -2 ^ 63 ≤ n ∧ n < 2 ^ 63 then some (.int n) else none
  | .int, _, .int n => if -2 ^ 63 ≤ n ∧ n < 2 ^ 63 then some (.int n) else none
  | .slice t, .slice elems spare, .arr xs =>
    match decodeArray t (elems ++ spare) xs with
    | none => none
    | some vs => if xs.isEmpty then some (.slice [] []) else some (.slice vs ((elems ++ spare).drop xs.length))
  | .struct fs, .struct vals, .obj kvs =>
    match decodeObject fs vals kvs with
    | none => none
    | some vals1 => some (.struct vals1)
  | _, _, _ => none
def decodeArray : GoType → List Val → List Json → Option (List Val)
  | _, _, [] => some []
  | t, backing, x :: xs =>
    match decode t (backing.headD (zero t)) x with
    | none => none
    | some v =>
      match decodeArray t backing.tail xs with
      | none => none
      | some vs => some (v :: vs)
def decodeObject : List (String × GoType) → List (String × Val) → List (String × Json) → Option (List (String × Val))
  | _, vals, [] => some vals
  | fs, vals, (k, j) :: kvs =>
    match findField fs k with
    | none => decodeObject fs vals kvs
    | some (name, t) =>
      match decode t (getField vals name (zero t)) j with
      | none => none
      | some v => decodeObject fs (setField vals name v) kvs
end

/-- Call `json.Unmarshal(body, &x)` for a fresh `x` of type `t`; `none` when it
returns an error. -/
def unmarshal (t : GoType) (body : Option Json) : Option Val :=
  match checkValid body with
  | none => none
  | some j => decode t (zero t) j

/-- Call `json.Unmarshal(body, &m)` for `m` a nil `map[string]interface{}`: the keys
and values of the map, `none` when it returns an error.  Every value is decoded into
an `interface{}`. -/
def unmarshalMap (body : Option Json) : Option (List (String × Json)) :=
  match checkValid body with
  | some (.obj kvs) => if interfaceOkFields kvs then some kvs else none
  | some .null => some []
  | _ => none

/-- Field selection by `json` tag. -/
def Val.field (v : Val) (name : String) : Val :=
  match v with
  | .struct fs => getField fs name (.any .null)
  | _ => .any .null

/-- The elements of a slice. -/
def Val.elems : Val → List Val
  | .slice es _ => es
  | _ => []

/-- The Go string a value holds. -/
def Val.str : Val → String
  | .string s => s
  | _ => ""

/-- Type `DadJoke`. -/
def DadJoke : GoType :=
  .struct [("id", .string), ("joke", .string), ("status", .int)]

/-- Type of the field `User` of a tweet create event. -/
def userType : GoType :=
  .struct [
    ("id", .int64), ("id_str", .string), ("name", .string), ("screen_name", .string),
    ("location", .any), ("url", .any), ("description", .any), ("translator_type", .string),
    ("protected", .bool), ("verified", .bool), ("followers_count", .int),
    ("friends_count", .int), ("listed_count", .int), ("favourites_count", .int),
    ("statuses_count", .int), ("created_at", .string), ("utc_offset", .any),
    ("time_zone", .any), ("geo_enabled", .bool), ("lang", .any),
    ("contributors_enabled", .bool), ("is_translator", .bool),
    ("profile_background_color", .string), ("profile_background_image_url", .string),
    ("profile_background_image_url_https", .string), ("profile_background_tile", .bool),
    ("profile_link_color", .string), ("profile_sidebar_border_color", .string),
    ("profile_sidebar_fill_color", .string), ("profile_text_color", .string),
    ("profile_use_background_image", .bool), ("profile_image_url", .string),
    ("profile_image_url_https", .string), ("default_profile", .bool),
    ("default_profile_image", .bool), ("following", .any), ("follow_request_sent", .any),
    ("notifications", .any), ("withheld_in_countries", .slice .any)]

/-- Type of the field `Entities` of a tweet create event. -/
def entitiesType : GoType :=
  .struct [
    ("hashtags", .slice .any), ("urls", .slice .any),
    ("user_mentions", .slice (.struct [
      ("screen_name", .string), ("name", .string), ("id", .int64), ("id_str", .string),
      ("indices", .slice .int)])),
    ("symbols", .slice .any)]

/-- Type of the elements of `TweetCreateEvents`. -/
def tweetCreateEventType : GoType :=
  .struct [
    ("created_at", .string), ("id", .int64), ("id_str", .string), ("text", .string),
    ("source", .string), ("truncated", .bool), ("in_reply_to_status_id", .any),
    ("in_reply_to_status_id_str", .any), ("in_reply_to_user_id", .any),
    ("in_reply_to_user_id_str", .any), ("in_reply_to_screen_name", .any),
    ("user", userType), ("geo", .any), ("coordinates", .any), ("place", .any),
    ("contributors", .any), ("is_quote_status", .bool), ("quote_count", .int),
    ("reply_count", .int), ("retweet_count", .int), ("favorite_count", .int),
    ("entities", entitiesType), ("favorited", .bool), ("retweeted", .bool),
    ("filter_level", .string), ("lang", .string), ("timestamp_ms", .string)]

/-- Type `TwitterMentionHook`. -/
def TwitterMentionHook : GoType :=
  .struct [
    ("for_user_id", .string), ("user_has_blocked", .bool),
    ("tweet_create_events", .slice tweetCreateEventType)]

/-! ## regexp: the pattern of the trigger -/

/-- The items of a pattern that is a sequence of literal characters and `\b`. -/
inductive ReItem where
  | lit (c : Char)
  | wordBoundary
deriving DecidableEq, Repr

/-- Characters a backslash turns into a literal: ASCII other than letters and digits. -/
def isPunct (c : Char) : Bool :=
  c.toNat < 0x80 && !(('A' ≤ c && c ≤ 'Z') || ('a' ≤ c && c ≤ 'z') || ('0' ≤ c && c ≤ '9'))

/-- Characters with a meaning of their own in a pattern. -/
def isMeta (c : Char) : Bool :=
  "\\.+*?()|[]\x7b\x7d^$".data.contains c

/-- Parser of the patterns made of plain characters, escaped punctuation and `\b`;
`none` for any other pattern. -/
def parsePattern : List Char → Option (List ReItem)
  | [] => some []
  | '\\' :: c :: rest =>
    if c = 'b' then (parsePattern rest).map (ReItem.wordBoundary :: ·)
    else if isPunct c then (parsePattern rest).map (ReItem.lit c :: ·)
    else none
  | c :: rest =>
    if isMeta c then none else (parsePattern rest).map (ReItem.lit c :: ·)

/-- Word characters of `\b`: ASCII letters, digits and the underscore. -/
def isWordChar (c : Char) : Bool :=
  ('A' ≤ c && c ≤ 'Z') || ('a' ≤ c && c ≤ 'z') || ('0' ≤ c && c ≤ '9') || c = '_'

/-- Whether the character at a side of a position is a word character; the start and
the end of the text are not. -/
def isWordOpt : Option Char → Bool
  | none => false
  | some c => isWordChar c

/-- Match of the items at one position: `prev` is the character before the position
(none at the start of the text), the list the text from the position on. -/
def matchHere : List ReItem → Option Char → List Char → Bool
  | [], _, _ => true
  | .lit c :: items, _, d :: rest => c = d && matchHere items (some d) rest
  | .lit _ :: _, _, [] => false
  | .wordBoundary :: items, prev, rest =>
    (isWordOpt prev != isWordOpt rest.head?) && matchHere items prev rest

/-- Unanchored search: a match at some position of the text. -/
def searchFrom (items : List ReItem) : Option Char → List Char → Bool
  | prev, [] => matchHere items prev []
  | prev, c :: rest => matchHere items prev (c :: rest) || searchFrom items (some c) rest

/-- Call `regexp.MatchString(pattern, s)` with the error dropped: false when the
pattern does not compile. -/
def MatchString (pattern : String) (s : String) : Bool :=
  match parsePattern pattern.data with
  | none => false
  | some items => searchFrom items none s.data

/-! ## The outbound calls -/

/-- What reading a body gives: a read error, or bytes that are a JSON text by the
grammar (`some`) or not (`none`). -/
inductive Body where
  | readError
  | bytes (json : Option Json)

/-- What an HTTP client call gives: an error of the client, or a response. -/
inductive HttpResult where
  | clientError
  | response (statusCode : Nat) (body : Body)

/-- The credentials `twitterClient` signs with. -/
structure OAuthCreds where
  consumerKey : String
  consumerSecret : String
  accessToken : String
  accessSecret : String
deriving DecidableEq, Repr

/-- An HTTP request sent by the program. -/
inductive Call where
  | get (url : String) (header : Fields)
  | postForm (creds : OAuthCreds) (path : String) (params : Fields)
deriving DecidableEq, Repr

/-- The two remote services: the answer to each request the program can send. -/
structure World where
  get : String → Fields → HttpResult
  postForm : OAuthCreds → String → Fields → HttpResult

/-- The errors of `getRandomDadJoke` and `replyTweet`. -/
inductive Err where
  | client
  | readBody
  | decode
  | statusCode (code : Nat)
deriving DecidableEq, Repr

/-- Function `getRandomDadJoke`: the joke or the error, and the request sent
(`http.NewRequest` cannot fail on this method and URL). -/
def getRandomDadJoke (w : World) : Except Err Val × List Call :=
  let url := "https://icanhazdadjoke.com/"
  let header : Fields := [("Accept", "application/json")]
  let result : Except Err Val :=
    match w.get url header with
    | .clientError => .error .client
    | .response _ .readError => .error .readBody
    | .response statusCode (.bytes body) =>
      if statusCode ≥ 400 then .error (.statusCode statusCode)
      else
        match unmarshal DadJoke body with
        | none => .error .decode
        | some dadJoke => .ok dadJoke
  (result, [Call.get url header])

/-- Function `twitterClient`. -/
def twitterClient (getenv : String → String) : OAuthCreds :=
  { consumerKey := getenv "TWITTER_CONSUMER_KEY",
    consumerSecret := getenv "TWITTER_CONSUMER_SECRET",
    accessToken := getenv "TWITTER_ACCESS_TOKEN",
    accessSecret := getenv "TWITTER_ACCESS_TOKEN_SECRET" }

/-- Function `replyTweet`: the error if any, and the request sent. -/
def replyTweet (getenv : String → String) (w : World) (tweet replyID : String) :
    Option Err × List Call :=
  let path := getenv "TWITTER_BASE_URL" ++ "/statuses/update.json"
  let params : Fields := (Fields.set [] "status" tweet).set "in_reply_to_status_id" replyID
  let client := twitterClient getenv
  let err : Option Err :=
    match w.postForm client path params with
    | .clientError => some .client
    | .response _ .readError => some .readBody
    | .response statusCode (.bytes body) =>
      match unmarshalMap body with
      | none => some .decode
      | some _ => if statusCode ≥ 400 then some (.statusCode statusCode) else none
  (err, [Call.postForm client path params])

/-! ## wehbookHandler -/

/-- How a handler ends: it returns with a response written, or it panics. -/
inductive Outcome where
  | responded (rw : ResponseWriter)
  | panicked (msg : String)
deriving DecidableEq, Repr

/-- One run of a handler: how it ends and the requests it sent, in order. -/
structure Run where
  outcome : Outcome
  calls : List Call
deriving DecidableEq, Repr

/-- Handler `wehbookHandler` of `POST /webhook/twitter`; `body` is the request body.
Indexing the empty event list is the run-time panic of Go. -/
def wehbookHandler (getenv : String → String) (w : World) (body : Body) : Run :=
  let rw : ResponseWriter := {}
  match body with
  | .readError => ⟨.responded (httpError rw "cannot read response body" 400), []⟩
  | .bytes body =>
    match unmarshalMap body with
    | none => ⟨.responded (httpError rw "invalid parsing body response - rawData" 400), []⟩
    | some rawData =>
      if ¬ rawData.any (fun kv => kv.1 == "tweet_create_events") then
        ⟨.responded (rw.WriteHeader 200), []⟩
      else
        match unmarshal TwitterMentionHook body with
        | none =>
          ⟨.responded (httpError rw "invalid parsing body response - twitterMentionHook" 400), []⟩
        | some twitterMentionHook =>
          match (twitterMentionHook.field "tweet_create_events").elems with
          | [] => ⟨.panicked "runtime error: index out of range [0] with length 0", []⟩
          | event0 :: _ =>
            let text := (event0.field "text").str
            let replayID := (event0.field "id_str").str
            let username := ((event0.field "user").field "screen_name").str
            let dadJokeMatch := MatchString "\\#dadjoke\\b" text
            if dadJokeMatch then
              match getRandomDadJoke w with
              | (.error _, calls1) => ⟨.responded (httpError rw "failed get dadjoke" 400), calls1⟩
              | (.ok res, calls1) =>
                let status := "@" ++ username ++ " " ++ (res.field "joke").str
                match replyTweet getenv w status replayID with
                | (some _, calls2) =>
                  ⟨.responded (httpError rw "failed to replay tweet" 400), calls1 ++ calls2⟩
                | (none, calls2) => ⟨.responded (rw.Write "ok"), calls1 ++ calls2⟩
            else
              ⟨.responded (rw.Write "ok"), []⟩

/-! ## Statement helpers -/

/-- Character before a position of a text: the last character read, or `prev` when
nothing was read. -/
def lastOr (prev : Option Char) (pre : List Char) : Option Char :=
  match pre.getLast? with
  | some c => some c
  | none => prev

/-- The pattern of the trigger, as the Go string literal in `wehbookHandler`. -/
def dadJokePattern : String := "\\#dadjoke\\b"

/-- The literal to find. -/
def dadJokeTag : List Char := "#dadjoke".data

/-- The request `getRandomDadJoke` sends. -/
def jokeRequest : Call :=
  Call.get "https://icanhazdadjoke.com/" [("Accept", "application/json")]

/-- The request `replyTweet` sends for a reply to `event` with the joke of `dadJoke`:
the form fields `status` and `in_reply_to_status_id`. -/
def replyRequest (getenv : String → String) (event dadJoke : Val) : Call :=
  Call.postForm (twitterClient getenv) (getenv "TWITTER_BASE_URL" ++ "/statuses/update.json")
    [("status", "@" ++ ((event.field "user").field "screen_name").str ++ " " ++
        (dadJoke.field "joke").str),
     ("in_reply_to_status_id", (event.field "id_str").str)]

/-- The response `http.Error` writes on a fresh writer: status 400, plain text. -/
def badRequest (msg : String) : ResponseWriter :=
  { header := [("Content-Type", "text/plain; charset=utf-8"), ("X-Content-Type-Options", "nosniff")],
    status := some 400,
    sentHeader := [("Content-Type", "text/plain; charset=utf-8"),
      ("X-Content-Type-Options", "nosniff")],
    body := msg ++ "\n" }

/-- The response 200 with the plain body `ok`. -/
def okResponse : ResponseWriter :=
  { header := [], status := some 200, sentHeader := [], body := "ok" }

/-- A sample environment. -/
def sampleEnv (name : String) : String :=
  if name = "TWITTER_BASE_URL" then "https://api.twitter.com/1.1" else "abc"

/-- A sample joke as the content API returns it. -/
def sampleJoke : Json :=
  .obj [("id", .str "R7UfaahVfFd"), ("joke", .str "I used to hate facial hair, but then it grew on me."),
    ("status", .int 200)]

/-- A sample world: the content API answers `jokeCode` with the sample joke, the write
API answers `replyCode` with the body `replyBody`. -/
def sampleWorld (jokeCode replyCode : Nat) (replyBody : Option Json) : World :=
  { get := fun _ _ => .response jokeCode (.bytes (some sampleJoke)),
    postForm := fun _ _ _ => .response replyCode (.bytes replyBody) }

/-- A sample tweet create event. -/
def sampleEvent (idStr author text : String) : Json :=
  .obj [("created_at", .str "Wed Nov 04 10:00:00 +0000 2026"), ("id_str", .str idStr),
    ("text", .str text), ("truncated", .bool false), ("in_reply_to_status_id", .null),
    ("user", .obj [("id", .int 7), ("screen_name", .str author), ("verified", .bool false)]),
    ("retweet_count", .int 0), ("entities", .obj [("hashtags", .arr [.obj []])])]

/-- A sample envelope with two events: the first, of `alice` with the id string `12`,
holds `text`; the second, of `bob` with the id string `13`, holds the trigger. -/
def sampleEnvelope (text : String) : List (String × Json) :=
  [("for_user_id", .str "1"),
   ("tweet_create_events",
     .arr [sampleEvent "12" "alice" text, sampleEvent "13" "bob" "again #dadjoke"])]

/-- The sample envelope as `wehbookHandler` decodes it. -/
def sampleHook (text : String) : Val :=
  (unmarshal TwitterMentionHook (some (.obj (sampleEnvelope text)))).getD (.any .null)

/-- The first event of the decoded sample envelope. -/
def sampleFirst (text : String) : Val :=
  ((sampleHook text).field "tweet_create_events").elems.headD (.any .null)

/-- The sample joke as `getRandomDadJoke` decodes it. -/
def sampleDadJoke : Val :=
  (unmarshal DadJoke (some sampleJoke)).getD (.any .null)

/-- Response of `crcHandler` when a token is signed. -/
def tokenResponse (secret challenge : String) : ResponseWriter :=
  { header := jsonHeader, status := some 200, sentHeader := jsonHeader,
    body := "\x7b\"response_token\":\"sha256=" ++
      String.mk (base64Encode (hmacSha256 (bytesOf secret) (bytesOf challenge))) ++ "\"\x7d" }

/-! ## Known answers of the library models -/

/-- SHA-256 of `abc` (FIPS 180-4, appendix B.1). -/
theorem sha256_abc :
    sha256 (bytesOf "abc") =
      [0xba, 0x78, 0x16, 0xbf, 0x8f, 0x01, 0xcf, 0xea, 0x41, 0x41, 0x40, 0xde, 0x5d, 0xae, 0x22, 0x23,
       0xb0, 0x03, 0x61, 0xa3, 0x96, 0x17, 0x7a, 0x9c, 0xb4, 0x10, 0xff, 0x61, 0xf2, 0x00, 0x15, 0xad] := by
  decide!

/-- SHA-256 of a message of two blocks (FIPS 180-4, appendix B.2). -/
theorem sha256_two_blocks :
    sha256 (bytesOf "abcdbcdecdefdefgefghfghighijhijkijkljklmklmnlmnomnopnopq") =
      [0x24, 0x8d, 0x6a, 0x61, 0xd2, 0x06, 0x38, 0xb8, 0xe5, 0xc0, 0x26, 0x93, 0x0c, 0x3e, 0x60, 0x39,
       0xa3, 0x3c, 0xe4, 0x59, 0x64, 0xff, 0x21, 0x67, 0xf6, 0xec, 0xed, 0xd4, 0x19, 0xdb, 0x06, 0xc1] := by
  decide!

/-- HMAC-SHA256, test case 2 of RFC 4231. -/
theorem hmacSha256_rfc4231 :
    hmacSha256 (bytesOf "Jefe") (bytesOf "what do ya want for nothing?") =
      [0x5b, 0xdc, 0xc1, 0x46, 0xbf, 0x60, 0x75, 0x4e, 0x6a, 0x04, 0x24, 0x26, 0x08, 0x95, 0x75, 0xc7,
       0x5a, 0x00, 0x3f, 0x08, 0x9d, 0x27, 0x39, 0x83, 0x9d, 0xec, 0x58, 0xb9, 0x64, 0xec, 0x38, 0x43] := by
  decide!

/-- The range check of number literals: `1e999` and `1.7976931348623159e308` are
beyond `float64`, the largest `float64` `1.7976931348623157e308`, `1e-999` and `0e999`
are not. -/
theorem overflowsFloat64_known :
    overflowsFloat64 1 999 = true ∧
    overflowsFloat64 17976931348623159 292 = true ∧
    overflowsFloat64 17976931348623157 292 = false ∧
    overflowsFloat64 1 (-999) = false ∧
    overflowsFloat64 0 999 = false := by
  decide!

/-- The base64 test vectors of RFC 4648. -/
theorem base64Encode_rfc4648 :
    String.mk (base64Encode (bytesOf "f")) = "Zg==" ∧
    String.mk (base64Encode (bytesOf "fo")) = "Zm8=" ∧
    String.mk (base64Encode (bytesOf "foo")) = "Zm9v" ∧
    String.mk (base64Encode (bytesOf "foobar")) = "Zm9vYmFy" := by
  decide
/-! ## Theorems: crcHandler -/

theorem jsonSafe_b64Char (i : Nat) : jsonSafe (b64Char i) = true := by
  have h : ∀ j, j < 64 → jsonSafe (base64Alphabet.getD j 'A') = true := by decide
  exact h (i % 64) (Nat.mod_lt _ (by decide))

theorem jsonSafe_base64Encode (bs : List Nat) : ∀ c ∈ base64Encode bs, jsonSafe c = true := by
  have heq : jsonSafe '=' = true := by decide
  induction bs using base64Encode.induct with
  | case1 a b c rest ih =>
    intro x hx
    simp only [base64Encode, List.mem_cons] at hx
    rcases hx with h | h | h | h | h
    · subst h; exact jsonSafe_b64Char _
    · subst h; exact jsonSafe_b64Char _
    · subst h; exact jsonSafe_b64Char _
    · subst h; exact jsonSafe_b64Char _
    · exact ih x h
  | case2 a b =>
    intro x hx
    simp only [base64Encode, List.mem_cons, List.not_mem_nil, or_false] at hx
    rcases hx with h | h | h | h
    · subst h; exact jsonSafe_b64Char _
    · subst h; exact jsonSafe_b64Char _
    · subst h; exact jsonSafe_b64Char _
    · subst h; exact heq
  | case3 a =>
    intro x hx
    simp only [base64Encode, List.mem_cons, List.not_mem_nil, or_false] at hx
    rcases hx with h | h | h | h
    · subst h; exact jsonSafe_b64Char _
    · subst h; exact jsonSafe_b64Char _
    · subst h; exact heq
    · subst h; exact heq
  | case4 => intro x hx; simp [base64Encode] at hx

theorem flatMap_escapeChar_of_safe (cs : List Char) (h : ∀ c ∈ cs, jsonSafe c = true) :
    cs.flatMap escapeChar = cs := by
  induction cs with
  | nil => rfl
  | cons c cs ih =>
    have hc : jsonSafe c = true := h c (List.mem_cons_self _ _)
    have ht : cs.flatMap escapeChar = cs := ih (fun x hx => h x (List.mem_cons_of_mem _ hx))
    simp [List.flatMap_cons, escapeChar, hc, ht]

/-- The response token is written into the JSON body without any escape. -/
theorem encodeString_token (bs : List Nat) :
    encodeString ("sha256=" ++ String.mk (base64Encode bs))
      = "\"sha256=" ++ String.mk (base64Encode bs) ++ "\"" := by
  have h : ∀ c ∈ "sha256=".data ++ base64Encode bs, jsonSafe c = true := by
    intro c hc
    rcases List.mem_append.mp hc with h1 | h2
    · have hp : ∀ d ∈ "sha256=".data, jsonSafe d = true := by decide
      exact hp c h1
    · exact jsonSafe_base64Encode bs c h2
  apply String.ext
  simp only [encodeString, String.data_append]
  rw [flatMap_escapeChar_of_safe _ h]
  rfl

theorem crcHandler_of_values (getenv : String → String) (query : List (String × String))
    (first : String) (others : List String)
    (h : queryValues query "crc_token" = first :: others) :
    crcHandler getenv query = tokenResponse (getenv "TWITTER_CONSUMER_SECRET") first := by
  simp only [crcHandler, h, List.length_cons, List.headD_cons, marshalStringMap,
    encodeString_token, tokenResponse]
  rw [if_neg (by omega)]
  generalize String.mk (base64Encode _) = tok
  have hkey : encodeString "response_token" = "\"response_token\"" := by decide
  have hbody : "\x7b" ++ "\"response_token\"" ++ ":" ++ ("\"sha256=" ++ tok ++ "\"") ++ "\x7d"
      = "\x7b\"response_token\":\"sha256=" ++ tok ++ "\"\x7d" := by
    apply String.ext
    simp [String.data_append]
  rw [hkey, hbody]
  rfl

theorem queryValues_eq_nil (query : List (String × String)) (key : String)
    (h : ∀ kv ∈ query, kv.1 ≠ key) : queryValues query key = [] := by
  simp only [queryValues, List.map_eq_nil_iff, List.filter_eq_nil_iff]
  intro kv hkv
  simpa using h kv hkv

/-- C1: for every secret and every handshake request whose query carries at least one
`crc_token` value, `crcHandler` answers 200 with the JSON body whose one field
`response_token` is `sha256=` followed by the padded base64 of the HMAC-SHA256 of the
bytes of the first `crc_token` value keyed by the secret: the response is a function
of the challenge and the secret only. -/
theorem crcHandler_response_token (getenv : String → String) (query : List (String × String))
    (first : String) (others : List String)
    (h : queryValues query "crc_token" = first :: others) :
    crcHandler getenv query =
      { header := [("Content-Type", "application/json")], status := some 200,
        sentHeader := [("Content-Type", "application/json")],
        body := "\x7b\"response_token\":\"sha256=" ++
          String.mk (base64Encode
            (hmacSha256 (bytesOf (getenv "TWITTER_CONSUMER_SECRET")) (bytesOf first))) ++
          "\"\x7d" } :=
  crcHandler_of_values getenv query first others h

theorem crcHandler_response_token_witness :
    queryValues [("crc_token", "hello")] "crc_token" = ["hello"] ∧
    crcHandler (fun _ => "abc") [("crc_token", "hello")] =
      { header := [("Content-Type", "application/json")], status := some 200,
        sentHeader := [("Content-Type", "application/json")],
        body := "\x7b\"response_token\":\"sha256=8xZqOkBFmdIEbtKq5HmzfVS1HS6FJZyeMUBCdTvn2BM=\"\x7d" } :=
  ⟨by decide,
   (crcHandler_response_token (fun _ => "abc") [("crc_token", "hello")] "hello" [] (by decide)).trans
     (by decide!)⟩

/-- C2: for every handshake request whose query has no `crc_token` parameter, whatever
the secret and the other parameters, `crcHandler` answers 400 with the plain text
`no crc token given`, sets no content type and signs nothing. -/
theorem crcHandler_no_token (getenv : String → String) (query : List (String × String))
    (h : ∀ kv ∈ query, kv.1 ≠ "crc_token") :
    crcHandler getenv query =
      { header := [], status := some 400, sentHeader := [], body := "no crc token given" } := by
  simp only [crcHandler, queryValues_eq_nil query "crc_token" h]
  rfl

theorem crcHandler_no_token_witness :
    (∀ kv ∈ [("nonce", "42"), ("crc", "hello")], kv.1 ≠ "crc_token") ∧
    crcHandler (fun _ => "abc") [("nonce", "42"), ("crc", "hello")] =
      { header := [], status := some 400, sentHeader := [], body := "no crc token given" } :=
  ⟨by decide, crcHandler_no_token (fun _ => "abc") [("nonce", "42"), ("crc", "hello")] (by decide)⟩

/-- C3, as stated, fails: for the query `?crc_token=` the handler answers 200 with the
token of the empty challenge, not 400. -/
theorem crcHandler_empty_token_counterexample :
    queryValues [("crc_token", "")] "crc_token" = [""] ∧
    crcHandler (fun _ => "abc") [("crc_token", "")] =
      { header := [("Content-Type", "application/json")], status := some 200,
        sentHeader := [("Content-Type", "application/json")],
        body := "\x7b\"response_token\":\"sha256=4mNgd1BnKaj2Gv8kQTMuQOhEqK1ESJ79gCEOptH1EIg=\"\x7d" } ∧
    (crcHandler (fun _ => "abc") [("crc_token", "")]).status ≠ some 400 := by
  have h := crcHandler_of_values (fun _ => "abc") [("crc_token", "")] "" [] (by decide)
  refine ⟨by decide, h.trans (by decide!), ?_⟩
  rw [h]
  decide

/-- C3, amended: for every handshake request whose first `crc_token` value is the
empty string, `crcHandler` answers 200 with the JSON body whose `response_token` is the
token of the empty challenge; the guard rejects a query only when it has no
`crc_token` value at all. -/
theorem crcHandler_empty_token (getenv : String → String) (query : List (String × String))
    (others : List String) (h : queryValues query "crc_token" = "" :: others) :
    crcHandler getenv query =
      { header := [("Content-Type", "application/json")], status := some 200,
        sentHeader := [("Content-Type", "application/json")],
        body := "\x7b\"response_token\":\"sha256=" ++
          String.mk (base64Encode
            (hmacSha256 (bytesOf (getenv "TWITTER_CONSUMER_SECRET")) [])) ++ "\"\x7d" } :=
  crcHandler_of_values getenv query "" others h

theorem crcHandler_empty_token_witness :
    queryValues [("crc_token", ""), ("crc_token", "x")] "crc_token" = ["", "x"] ∧
    crcHandler (fun _ => "abc") [("crc_token", ""), ("crc_token", "x")] =
      { header := [("Content-Type", "application/json")], status := some 200,
        sentHeader := [("Content-Type", "application/json")],
        body := "\x7b\"response_token\":\"sha256=" ++
          String.mk (base64Encode (hmacSha256 (bytesOf "abc") [])) ++ "\"\x7d" } :=
  ⟨by decide,
   crcHandler_empty_token (fun _ => "abc") [("crc_token", ""), ("crc_token", "x")] ["x"] (by decide)⟩

/-! ## Theorems: the trigger pattern -/

theorem lastOr_cons (prev : Option Char) (c : Char) (cs : List Char) :
    lastOr prev (c :: cs) = lastOr (some c) cs := by
  cases cs with
  | nil => rfl
  | cons d ds =>
    simp only [lastOr, List.getLast?_cons_cons]
    cases h : (d :: ds).getLast? with
    | none => simp at h
    | some x => rfl

theorem matchHere_lits (ls : List Char) (items : List ReItem) :
    ∀ (prev : Option Char) (rest : List Char),
      matchHere (ls.map ReItem.lit ++ items) prev rest = true ↔
        ∃ post, rest = ls ++ post ∧ matchHere items (lastOr prev ls) post = true := by
  induction ls with
  | nil =>
    intro prev rest
    constructor
    · intro h; exact ⟨rest, rfl, h⟩
    · rintro ⟨post, hp, h⟩
      rw [List.nil_append] at hp
      subst hp; exact h
  | cons c cs ih =>
    intro prev rest
    cases rest with
    | nil =>
      constructor
      · intro h; simp [matchHere] at h
      · rintro ⟨post, hp, _⟩; simp at hp
    | cons d rest1 =>
      simp only [List.map_cons, List.cons_append, matchHere, Bool.and_eq_true,
        decide_eq_true_eq, lastOr_cons]
      constructor
      · rintro ⟨hcd, h⟩
        subst hcd
        obtain ⟨post, hp, hm⟩ := (ih (some c) rest1).mp h
        exact ⟨post, by rw [hp], hm⟩
      · rintro ⟨post, hp, hm⟩
        injection hp with h1 h2
        subst h1
        exact ⟨rfl, (ih (some d) rest1).mpr ⟨post, h2, hm⟩⟩

theorem searchFrom_iff (items : List ReItem) :
    ∀ (t : List Char) (prev : Option Char),
      searchFrom items prev t = true ↔
        ∃ pre post, t = pre ++ post ∧ matchHere items (lastOr prev pre) post = true := by
  intro t
  induction t with
  | nil =>
    intro prev
    constructor
    · intro h; exact ⟨[], [], rfl, h⟩
    · rintro ⟨pre, post, hp, hm⟩
      have h1 : pre = [] := (List.append_eq_nil.mp hp.symm).1
      have h2 : post = [] := (List.append_eq_nil.mp hp.symm).2
      subst h1; subst h2; exact hm
  | cons c rest ih =>
    intro prev
    simp only [searchFrom, Bool.or_eq_true]
    constructor
    · rintro (h | h)
      · exact ⟨[], c :: rest, rfl, h⟩
      · obtain ⟨pre, post, hp, hm⟩ := (ih (some c)).mp h
        exact ⟨c :: pre, post, by rw [hp]; rfl, by rw [lastOr_cons]; exact hm⟩
    · rintro ⟨pre, post, hp, hm⟩
      cases pre with
      | nil =>
        left
        rw [List.nil_append] at hp
        subst hp; exact hm
      | cons d pre1 =>
        right
        injection hp with h1 h2
        subst h1
        rw [lastOr_cons] at hm
        exact (ih (some c)).mpr ⟨pre1, post, h2, hm⟩

theorem parsePattern_dadJoke :
    parsePattern dadJokePattern.data = some (dadJokeTag.map ReItem.lit ++ [ReItem.wordBoundary]) := by
  decide

theorem matchHere_boundary (prev : Option Char) (rest : List Char) :
    matchHere [ReItem.wordBoundary] prev rest = (isWordOpt prev != isWordOpt rest.head?) := by
  simp [matchHere]

theorem matchHere_dadJoke (prev : Option Char) (rest : List Char) :
    matchHere (dadJokeTag.map ReItem.lit ++ [ReItem.wordBoundary]) prev rest = true ↔
      ∃ post, rest = dadJokeTag ++ post ∧ isWordOpt post.head? = false := by
  have hl : lastOr prev dadJokeTag = some 'e' := rfl
  have he : isWordOpt (some 'e') = true := by decide
  rw [matchHere_lits]
  constructor
  · rintro ⟨post, hr, hb⟩
    refine ⟨post, hr, ?_⟩
    rw [hl, matchHere_boundary, he] at hb
    cases hw : isWordOpt post.head? with
    | false => rfl
    | true => rw [hw] at hb; exact absurd hb (by decide)
  · rintro ⟨post, hr, hw⟩
    refine ⟨post, hr, ?_⟩
    rw [hl, matchHere_boundary, he, hw]
    rfl

/-- The trigger matches exactly the texts that hold `#dadjoke` followed by the end of
the text or by a character that is no word character. -/
theorem matchString_dadJoke_iff (t : String) :
    MatchString dadJokePattern t = true ↔
      ∃ pre post, t.data = pre ++ dadJokeTag ++ post ∧ isWordOpt post.head? = false := by
  simp only [MatchString, parsePattern_dadJoke, searchFrom_iff]
  constructor
  · rintro ⟨pre, rest, hp, hm⟩
    obtain ⟨post, hr, hw⟩ := (matchHere_dadJoke _ rest).mp hm
    exact ⟨pre, post, by rw [hp, hr, List.append_assoc], hw⟩
  · rintro ⟨pre, post, hp, hw⟩
    exact ⟨pre, dadJokeTag ++ post, by rw [hp, List.append_assoc],
      (matchHere_dadJoke _ _).mpr ⟨post, rfl, hw⟩⟩

/-- C6, as stated, fails: the text `x#dadjoke` triggers, and it holds no occurrence of
`#dadjoke` that is delimited on both sides. -/
theorem trigger_whole_word_counterexample :
    MatchString "\\#dadjoke\\b" "x#dadjoke" = true ∧
    ¬ ∃ pre post, "x#dadjoke".data = pre ++ "#dadjoke".data ++ post ∧
        isWordOpt pre.getLast? = false ∧ isWordOpt post.head? = false := by
  refine ⟨by decide, ?_⟩
  rintro ⟨pre, post, hp, hl, _⟩
  cases pre with
  | nil => simp at hp
  | cons c pre1 =>
    cases pre1 with
    | nil =>
      simp only [List.cons_append, List.nil_append, List.cons.injEq] at hp
      have hc : c = 'x' := hp.1.symm
      subst hc
      exact absurd hl (by decide)
    | cons d pre2 =>
      have hlen := congrArg List.length hp
      simp only [List.length_append, List.length_cons, List.length_nil] at hlen
      omega

/-- C6, amended: for every text the trigger decision is a joke request if and only if
the text holds the case-sensitive literal `#dadjoke` at an occurrence immediately
followed by the end of the text or by a character that is no word character; nothing
is required of what precedes the occurrence.  `check out #dadjoke please` triggers and
`no trigger here` does not. -/
theorem trigger_iff_right_delimited :
    (∀ t : String, MatchString "\\#dadjoke\\b" t = true ↔
      ∃ pre post, t.data = pre ++ "#dadjoke".data ++ post ∧ isWordOpt post.head? = false) ∧
    MatchString "\\#dadjoke\\b" "check out #dadjoke please" = true ∧
    MatchString "\\#dadjoke\\b" "no trigger here" = false :=
  ⟨fun t => matchString_dadJoke_iff t, by decide, by decide⟩

/-- C10: the pattern constrains only what follows the token: a text matches if and
only if it holds `#dadjoke` immediately followed by the end of the text or by a
character that is no ASCII letter, digit or underscore; a match stays a match under
any prefix, so `x#dadjoke` matches, while `#dadjokes`, `#dadjoke_` and `#DadJoke` do
not. -/
theorem trigger_pattern_constrains_suffix_only :
    (∀ t : String, MatchString "\\#dadjoke\\b" t = true ↔
      ∃ pre post, t.data = pre ++ "#dadjoke".data ++ post ∧
        (post = [] ∨ ∃ c rest, post = c :: rest ∧ isWordChar c = false)) ∧
    (∀ (before : List Char) (t : String), MatchString "\\#dadjoke\\b" t = true →
      MatchString "\\#dadjoke\\b" (String.mk (before ++ t.data)) = true) ∧
    MatchString "\\#dadjoke\\b" "x#dadjoke" = true ∧
    MatchString "\\#dadjoke\\b" "#dadjokes" = false ∧
    MatchString "\\#dadjoke\\b" "#dadjoke_" = false ∧
    MatchString "\\#dadjoke\\b" "#DadJoke" = false := by
  refine ⟨fun t => ?_, fun before t h => ?_, by decide, by decide, by decide, by decide⟩
  · refine (matchString_dadJoke_iff t).trans ?_
    constructor
    · rintro ⟨pre, post, hp, hw⟩
      refine ⟨pre, post, hp, ?_⟩
      cases post with
      | nil => exact Or.inl rfl
      | cons c rest => exact Or.inr ⟨c, rest, rfl, hw⟩
    · rintro ⟨pre, post, hp, hpost⟩
      refine ⟨pre, post, hp, ?_⟩
      rcases hpost with h | ⟨c, rest, h, hc⟩
      · subst h; rfl
      · subst h; exact hc
  · obtain ⟨pre, post, hp, hw⟩ := (matchString_dadJoke_iff t).mp h
    refine (matchString_dadJoke_iff _).mpr ⟨before ++ pre, post, ?_, hw⟩
    show before ++ t.data = before ++ pre ++ dadJokeTag ++ post
    rw [hp]
    simp only [List.append_assoc]

/-! ## Theorems: wehbookHandler -/

theorem exists_key_of_any (kvs : List (String × Json)) (key : String)
    (h : ∀ kv ∈ kvs, kv.1 ≠ key) : kvs.any (fun kv => kv.1 == key) = false := by
  rw [List.any_eq_false]
  intro kv hkv
  simpa using h kv hkv

theorem any_key_of_mem (kvs : List (String × Json)) (key : String) (v : Json)
    (h : (key, v) ∈ kvs) : kvs.any (fun kv => kv.1 == key) = true := by
  rw [List.any_eq_true]
  exact ⟨(key, v), h, by simp⟩

/-- What a successful decoding into the map tells about the body. -/
theorem unmarshalMap_some_cases (body : Option Json) (m : List (String × Json))
    (h : unmarshalMap body = some m) :
    (body = some (.obj m) ∧ interfaceOkFields m = true) ∨ (body = some .null ∧ m = []) := by
  cases body with
  | none => simp [unmarshalMap, checkValid] at h
  | some j =>
    simp only [unmarshalMap, checkValid] at h
    by_cases hd : j.depth ≤ maxNestingDepth
    · rw [if_pos hd] at h
      cases j with
      | null =>
        simp only [Option.some.injEq] at h
        exact Or.inr ⟨rfl, h.symm⟩
      | obj fields =>
        simp only at h
        by_cases hok : interfaceOkFields fields = true
        · rw [if_pos hok] at h
          simp only [Option.some.injEq] at h
          subst h
          exact Or.inl ⟨rfl, hok⟩
        · rw [if_neg hok] at h
          exact absurd h (by simp)
      | bool b => simp at h
      | int n => simp at h
      | float mantissa exponent => simp at h
      | str s => simp at h
      | arr xs => simp at h
    · rw [if_neg hd] at h
      simp at h

theorem unmarshalMap_eq_none (body : Option Json)
    (hobj : ∀ fields, body ≠ some (.obj fields)) (hnull : body ≠ some .null) :
    unmarshalMap body = none := by
  cases h : unmarshalMap body with
  | none => rfl
  | some m =>
    rcases unmarshalMap_some_cases body m h with ⟨hb, _⟩ | ⟨hb, _⟩
    · exact absurd hb (hobj m)
    · exact absurd hb hnull

theorem unmarshalMap_overflow (fields : List (String × Json))
    (h : interfaceOkFields fields = false) : unmarshalMap (some (.obj fields)) = none := by
  cases hm : unmarshalMap (some (.obj fields)) with
  | none => rfl
  | some m =>
    rcases unmarshalMap_some_cases _ m hm with ⟨hb, hok⟩ | ⟨hb, _⟩
    · simp only [Option.some.injEq, Json.obj.injEq] at hb
      subst hb
      rw [h] at hok
      exact absurd hok (by decide)
    · simp at hb

/-- C4, as stated, fails at two kinds of body.  For the envelope of another event
category the handler answers 200 with an empty body, not with the body `ok`; and for
the JSON object `{"x": 1e999}`, whose number no `float64` holds, the decoding into the
map fails and the handler answers 400. -/
theorem wehbookHandler_no_events_counterexample :
    wehbookHandler sampleEnv (sampleWorld 200 200 (some (.obj [])))
        (.bytes (some (.obj [("for_user_id", .str "1"), ("favorite_events", .arr [])]))) =
      ⟨.responded { header := [], status := some 200, sentHeader := [], body := "" }, []⟩ ∧
    wehbookHandler sampleEnv (sampleWorld 200 200 (some (.obj [])))
        (.bytes (some (.obj [("for_user_id", .str "1"), ("favorite_events", .arr [])]))) ≠
      ⟨.responded okResponse, []⟩ ∧
    wehbookHandler sampleEnv (sampleWorld 200 200 (some (.obj [])))
        (.bytes (some (.obj [("x", .float 1 999)]))) =
      ⟨.responded (badRequest "invalid parsing body response - rawData"), []⟩ := by
  refine ⟨rfl, by decide, rfl⟩

/-- C4, amended: for every POST body that is a JSON object with no
`tweet_create_events` key and that `json.Unmarshal` decodes into the map without
error, `wehbookHandler` answers 200 with an empty body and sends no request: neither
`getRandomDadJoke` nor `replyTweet` is invoked. -/
theorem wehbookHandler_no_events (getenv : String → String) (w : World)
    (kvs rawData : List (String × Json))
    (h : ∀ kv ∈ kvs, kv.1 ≠ "tweet_create_events")
    (hraw : unmarshalMap (some (.obj kvs)) = some rawData) :
    wehbookHandler getenv w (.bytes (some (.obj kvs))) =
      ⟨.responded { header := [], status := some 200, sentHeader := [], body := "" }, []⟩ := by
  have hk : rawData = kvs := by
    rcases unmarshalMap_some_cases _ rawData hraw with ⟨hb, _⟩ | ⟨hb, _⟩
    · simp only [Option.some.injEq, Json.obj.injEq] at hb
      exact hb.symm
    · simp at hb
  subst hk
  simp only [wehbookHandler, hraw, exists_key_of_any rawData _ h]
  rfl

theorem wehbookHandler_no_events_witness :
    (∀ kv ∈ [("for_user_id", Json.str "1"), ("favorite_events", Json.arr [])],
      kv.1 ≠ "tweet_create_events") ∧
    unmarshalMap (some (.obj [("for_user_id", .str "1"), ("favorite_events", .arr [])])) =
      some [("for_user_id", .str "1"), ("favorite_events", .arr [])] ∧
    wehbookHandler sampleEnv (sampleWorld 200 200 (some (.obj [])))
        (.bytes (some (.obj [("for_user_id", .str "1"), ("favorite_events", .arr [])]))) =
      ⟨.responded { header := [], status := some 200, sentHeader := [], body := "" }, []⟩ :=
  ⟨by decide, rfl, wehbookHandler_no_events _ _ _ _ (by decide) rfl⟩

/-- C5 fails on the code: for the bodies `{"tweet_create_events": []}` and
`{"tweet_create_events": null}` the handler indexes the empty event list and panics;
it writes no 400 response. -/
theorem wehbookHandler_empty_events_panics (getenv : String → String) (w : World) :
    wehbookHandler getenv w (.bytes (some (.obj [("tweet_create_events", .arr [])]))) =
      ⟨.panicked "runtime error: index out of range [0] with length 0", []⟩ ∧
    wehbookHandler getenv w (.bytes (some (.obj [("tweet_create_events", .null)]))) =
      ⟨.panicked "runtime error: index out of range [0] with length 0", []⟩ :=
  ⟨rfl, rfl⟩

/-- The handler on a triggering envelope: the run is decided by the two calls. -/
theorem wehbookHandler_triggered (getenv : String → String) (w : World)
    (body : Option Json) (rawData : List (String × Json)) (v : Json)
    (hook event0 : Val) (rest : List Val)
    (hraw : unmarshalMap body = some rawData)
    (hkey : ("tweet_create_events", v) ∈ rawData)
    (hhook : unmarshal TwitterMentionHook body = some hook)
    (hev : (hook.field "tweet_create_events").elems = event0 :: rest)
    (htrig : MatchString "\\#dadjoke\\b" (event0.field "text").str = true) :
    wehbookHandler getenv w (.bytes body) =
      match getRandomDadJoke w with
      | (.error _, calls1) => ⟨.responded (badRequest "failed get dadjoke"), calls1⟩
      | (.ok res, calls1) =>
        match replyTweet getenv w
            ("@" ++ ((event0.field "user").field "screen_name").str ++ " " ++ (res.field "joke").str)
            (event0.field "id_str").str with
        | (some _, calls2) => ⟨.responded (badRequest "failed to replay tweet"), calls1 ++ calls2⟩
        | (none, calls2) => ⟨.responded okResponse, calls1 ++ calls2⟩ := by
  simp only [wehbookHandler, hraw, any_key_of_mem rawData _ v hkey, hhook, hev, htrig]
  rfl

theorem getRandomDadJoke_calls (w : World) : (getRandomDadJoke w).2 = [jokeRequest] := rfl

theorem getRandomDadJoke_ok (w : World) (code : Nat) (body : Option Json) (dadJoke : Val)
    (hget : w.get "https://icanhazdadjoke.com/" [("Accept", "application/json")] =
      .response code (.bytes body))
    (hcode : code < 400) (hjoke : unmarshal DadJoke body = some dadJoke) :
    getRandomDadJoke w = (.ok dadJoke, [jokeRequest]) := by
  simp only [getRandomDadJoke, hget, hjoke, jokeRequest]
  rw [if_neg (by omega)]

theorem getRandomDadJoke_status (w : World) (code : Nat) (body : Option Json)
    (hget : w.get "https://icanhazdadjoke.com/" [("Accept", "application/json")] =
      .response code (.bytes body))
    (hcode : 400 ≤ code) :
    getRandomDadJoke w = (.error (.statusCode code), [jokeRequest]) := by
  simp only [getRandomDadJoke, hget, jokeRequest]
  rw [if_pos hcode]

theorem getRandomDadJoke_error (w : World) (e : Err)
    (h : (getRandomDadJoke w).1 = .error e) :
    getRandomDadJoke w = (.error e, [jokeRequest]) := by
  rw [← h, ← getRandomDadJoke_calls w]

theorem replyTweet_eq (getenv : String → String) (w : World) (tweet replyID : String) :
    replyTweet getenv w tweet replyID =
      ((match w.postForm (twitterClient getenv) (getenv "TWITTER_BASE_URL" ++ "/statuses/update.json")
            [("status", tweet), ("in_reply_to_status_id", replyID)] with
        | .clientError => some .client
        | .response _ .readError => some .readBody
        | .response statusCode (.bytes body) =>
          match unmarshalMap body with
          | none => some .decode
          | some _ => if statusCode ≥ 400 then some (.statusCode statusCode) else none),
       [Call.postForm (twitterClient getenv) (getenv "TWITTER_BASE_URL" ++ "/statuses/update.json")
          [("status", tweet), ("in_reply_to_status_id", replyID)]]) := by
  simp [replyTweet, Fields.set]

theorem replyTweet_snd (getenv : String → String) (w : World) (tweet replyID : String) :
    (replyTweet getenv w tweet replyID).2 =
      [Call.postForm (twitterClient getenv) (getenv "TWITTER_BASE_URL" ++ "/statuses/update.json")
          [("status", tweet), ("in_reply_to_status_id", replyID)]] := by
  rw [replyTweet_eq]

theorem replyTweet_of_response (getenv : String → String) (w : World) (tweet replyID : String)
    (code : Nat) (body : Option Json)
    (hpost : w.postForm (twitterClient getenv) (getenv "TWITTER_BASE_URL" ++ "/statuses/update.json")
      [("status", tweet), ("in_reply_to_status_id", replyID)] = .response code (.bytes body)) :
    (replyTweet getenv w tweet replyID).1 =
      match unmarshalMap body with
      | none => some .decode
      | some _ => if code ≥ 400 then some (.statusCode code) else none := by
  rw [replyTweet_eq]
  simp only [hpost]

theorem wehbookHandler_fetched (getenv : String → String) (w : World)
    (envelope : Option Json) (rawData : List (String × Json)) (v : Json)
    (hook event0 : Val) (rest : List Val)
    (code : Nat) (body : Option Json) (dadJoke : Val)
    (hraw : unmarshalMap envelope = some rawData)
    (hkey : ("tweet_create_events", v) ∈ rawData)
    (hhook : unmarshal TwitterMentionHook envelope = some hook)
    (hev : (hook.field "tweet_create_events").elems = event0 :: rest)
    (htrig : MatchString "\\#dadjoke\\b" (event0.field "text").str = true)
    (hget : w.get "https://icanhazdadjoke.com/" [("Accept", "application/json")] =
      .response code (.bytes body))
    (hcode : code < 400) (hjoke : unmarshal DadJoke body = some dadJoke) :
    wehbookHandler getenv w (.bytes envelope) =
      match (replyTweet getenv w
          ("@" ++ ((event0.field "user").field "screen_name").str ++ " " ++
            (dadJoke.field "joke").str)
          (event0.field "id_str").str).1 with
      | some _ => ⟨.responded (badRequest "failed to replay tweet"),
          [jokeRequest, replyRequest getenv event0 dadJoke]⟩
      | none => ⟨.responded okResponse, [jokeRequest, replyRequest getenv event0 dadJoke]⟩ := by
  rw [wehbookHandler_triggered getenv w envelope rawData v hook event0 rest hraw hkey hhook hev htrig,
    getRandomDadJoke_ok w code body dadJoke hget hcode hjoke]
  simp only []
  have h2 := replyTweet_snd getenv w
      ("@" ++ ((event0.field "user").field "screen_name").str ++ " " ++ (dadJoke.field "joke").str)
      (event0.field "id_str").str
  generalize replyTweet getenv w _ _ = r at h2 ⊢
  obtain ⟨e, calls⟩ := r
  simp only at h2
  subst h2
  cases e <;> rfl

/-- C7: for every envelope that the handler decodes (both calls of `json.Unmarshal`
succeed) with a `tweet_create_events` key and a non-empty event list whose first
event's text triggers, and every successful content fetch, the handler sends the joke
request and then exactly one reply request, whose field `in_reply_to_status_id` is the
`id_str` of the first event and whose field `status` is `@`, the `screen_name` of the
first event's user, a blank and the joke; the later events play no part; and if the
reply succeeds (its body decodes and its status is below 400) the response is 200 with
the body `ok`. -/
theorem wehbookHandler_replies_to_first_event (getenv : String → String) (w : World)
    (envelope : Option Json) (rawData : List (String × Json)) (v : Json)
    (hook event0 : Val) (rest : List Val)
    (code : Nat) (body : Option Json) (dadJoke : Val)
    (hraw : unmarshalMap envelope = some rawData)
    (hkey : ("tweet_create_events", v) ∈ rawData)
    (hhook : unmarshal TwitterMentionHook envelope = some hook)
    (hev : (hook.field "tweet_create_events").elems = event0 :: rest)
    (htrig : MatchString "\\#dadjoke\\b" (event0.field "text").str = true)
    (hget : w.get "https://icanhazdadjoke.com/" [("Accept", "application/json")] =
      .response code (.bytes body))
    (hcode : code < 400) (hjoke : unmarshal DadJoke body = some dadJoke) :
    (wehbookHandler getenv w (.bytes envelope)).calls =
      [Call.get "https://icanhazdadjoke.com/" [("Accept", "application/json")],
       Call.postForm (twitterClient getenv) (getenv "TWITTER_BASE_URL" ++ "/statuses/update.json")
        [("status", "@" ++ ((event0.field "user").field "screen_name").str ++ " " ++
            (dadJoke.field "joke").str),
         ("in_reply_to_status_id", (event0.field "id_str").str)]] ∧
    (∀ (code2 : Nat) (body2 : Option Json) (m : List (String × Json)),
      w.postForm (twitterClient getenv) (getenv "TWITTER_BASE_URL" ++ "/statuses/update.json")
        [("status", "@" ++ ((event0.field "user").field "screen_name").str ++ " " ++
            (dadJoke.field "joke").str),
         ("in_reply_to_status_id", (event0.field "id_str").str)] =
          .response code2 (.bytes body2) →
      unmarshalMap body2 = some m → code2 < 400 →
      (wehbookHandler getenv w (.bytes envelope)).outcome =
        .responded { header := [], status := some 200, sentHeader := [], body := "ok" }) := by
  have h := wehbookHandler_fetched getenv w envelope rawData v hook event0 rest code body dadJoke
    hraw hkey hhook hev htrig hget hcode hjoke
  constructor
  · rw [h]
    cases (replyTweet getenv w _ _).1 <;> rfl
  · intro code2 body2 m hpost hm hc2
    rw [h, replyTweet_of_response getenv w _ _ code2 body2 hpost, hm]
    simp only []
    rw [if_neg (by omega)]
    rfl

theorem wehbookHandler_replies_to_first_event_witness :
    (wehbookHandler sampleEnv (sampleWorld 200 200 (some (.obj [])))
        (.bytes (some (.obj (sampleEnvelope "check out #dadjoke please"))))).calls =
      [Call.get "https://icanhazdadjoke.com/" [("Accept", "application/json")],
       Call.postForm
        { consumerKey := "abc", consumerSecret := "abc", accessToken := "abc", accessSecret := "abc" }
        "https://api.twitter.com/1.1/statuses/update.json"
        [("status", "@alice I used to hate facial hair, but then it grew on me."),
         ("in_reply_to_status_id", "12")]] ∧
    (wehbookHandler sampleEnv (sampleWorld 200 200 (some (.obj [])))
        (.bytes (some (.obj (sampleEnvelope "check out #dadjoke please"))))).outcome =
      .responded { header := [], status := some 200, sentHeader := [], body := "ok" } := by
  have h := wehbookHandler_replies_to_first_event sampleEnv (sampleWorld 200 200 (some (.obj [])))
    (some (.obj (sampleEnvelope "check out #dadjoke please")))
    (sampleEnvelope "check out #dadjoke please")
    (.arr [sampleEvent "12" "alice" "check out #dadjoke please", sampleEvent "13" "bob" "again #dadjoke"])
    (sampleHook "check out #dadjoke please") (sampleFirst "check out #dadjoke please")
    (((sampleHook "check out #dadjoke please").field "tweet_create_events").elems.tail)
    200 (some sampleJoke) sampleDadJoke
    rfl (by simp [sampleEnvelope]) rfl rfl (by decide) rfl (by decide) rfl
  exact ⟨h.1, h.2 200 (some (.obj [])) [] rfl rfl (by decide)⟩

/-- C8: for every triggering envelope that the handler decodes, when the content fetch
fails (an error of the client, a status of 400 or more, or a body that does not
decode) the handler answers 400 and sends the joke request only, so `replyTweet` is
never invoked; and `getRandomDadJoke` reports a status of 400 or more as a status
error whatever the body holds, the status check coming before the decoding. -/
theorem wehbookHandler_fetch_failure (getenv : String → String) (w : World)
    (envelope : Option Json) (rawData : List (String × Json)) (v : Json)
    (hook event0 : Val) (rest : List Val)
    (hraw : unmarshalMap envelope = some rawData)
    (hkey : ("tweet_create_events", v) ∈ rawData)
    (hhook : unmarshal TwitterMentionHook envelope = some hook)
    (hev : (hook.field "tweet_create_events").elems = event0 :: rest)
    (htrig : MatchString "\\#dadjoke\\b" (event0.field "text").str = true) :
    (w.get "https://icanhazdadjoke.com/" [("Accept", "application/json")] = .clientError →
      wehbookHandler getenv w (.bytes envelope) =
        ⟨.responded (badRequest "failed get dadjoke"),
          [Call.get "https://icanhazdadjoke.com/" [("Accept", "application/json")]]⟩) ∧
    (∀ (code : Nat) (body : Body),
      w.get "https://icanhazdadjoke.com/" [("Accept", "application/json")] = .response code body →
      400 ≤ code →
      wehbookHandler getenv w (.bytes envelope) =
        ⟨.responded (badRequest "failed get dadjoke"),
          [Call.get "https://icanhazdadjoke.com/" [("Accept", "application/json")]]⟩) ∧
    (∀ (code : Nat) (body : Option Json),
      w.get "https://icanhazdadjoke.com/" [("Accept", "application/json")] =
        .response code (.bytes body) →
      unmarshal DadJoke body = none →
      wehbookHandler getenv w (.bytes envelope) =
        ⟨.responded (badRequest "failed get dadjoke"),
          [Call.get "https://icanhazdadjoke.com/" [("Accept", "application/json")]]⟩) ∧
    (∀ (code : Nat) (body : Option Json),
      w.get "https://icanhazdadjoke.com/" [("Accept", "application/json")] =
        .response code (.bytes body) →
      400 ≤ code →
      (getRandomDadJoke w).1 = .error (.statusCode code)) := by
  have h := wehbookHandler_triggered getenv w envelope rawData v hook event0 rest
    hraw hkey hhook hev htrig
  have herr : ∀ e, (getRandomDadJoke w).1 = .error e →
      wehbookHandler getenv w (.bytes envelope) =
        ⟨.responded (badRequest "failed get dadjoke"), [jokeRequest]⟩ := by
    intro e he
    rw [h, getRandomDadJoke_error w e he]
  refine ⟨fun hget => herr .client ?_, fun code body hget hcode => ?_,
    fun code body hget hdec => ?_, fun code body hget hcode => ?_⟩
  · simp only [getRandomDadJoke, hget]
  · cases body with
    | readError => exact herr .readBody (by simp only [getRandomDadJoke, hget])
    | bytes b =>
      exact herr (.statusCode code) (by rw [getRandomDadJoke_status w code b hget hcode])
  · by_cases hcode : 400 ≤ code
    · exact herr (.statusCode code) (by rw [getRandomDadJoke_status w code body hget hcode])
    · refine herr .decode ?_
      simp only [getRandomDadJoke, hget, hdec]
      rw [if_neg hcode]
  · rw [getRandomDadJoke_status w code body hget hcode]

theorem wehbookHandler_fetch_failure_witness :
    wehbookHandler sampleEnv (sampleWorld 500 200 (some (.obj [])))
        (.bytes (some (.obj (sampleEnvelope "check out #dadjoke please")))) =
      ⟨.responded (badRequest "failed get dadjoke"),
        [Call.get "https://icanhazdadjoke.com/" [("Accept", "application/json")]]⟩ ∧
    (getRandomDadJoke (sampleWorld 500 200 (some (.obj [])))).1 = .error (.statusCode 500) := by
  have h := wehbookHandler_fetch_failure sampleEnv (sampleWorld 500 200 (some (.obj [])))
    (some (.obj (sampleEnvelope "check out #dadjoke please")))
    (sampleEnvelope "check out #dadjoke please")
    (.arr [sampleEvent "12" "alice" "check out #dadjoke please", sampleEvent "13" "bob" "again #dadjoke"])
    (sampleHook "check out #dadjoke please") (sampleFirst "check out #dadjoke please")
    (((sampleHook "check out #dadjoke please").field "tweet_create_events").elems.tail)
    rfl (by simp [sampleEnvelope]) rfl rfl (by decide)
  exact ⟨h.2.1 500 (.bytes (some sampleJoke)) rfl (by decide),
    h.2.2.2 500 (some sampleJoke) rfl (by decide)⟩

/-- C9, as stated, fails: the body `null` is no JSON object, yet it decodes; with the
status 500 `replyTweet` returns the status error, not the decode error, and with the
status 200 it returns no error at all. -/
theorem replyTweet_null_body_counterexample :
    (replyTweet sampleEnv (sampleWorld 200 500 (some .null)) "@alice joke" "12").1 =
      some (.statusCode 500) ∧
    (replyTweet sampleEnv (sampleWorld 200 200 (some .null)) "@alice joke" "12").1 = none := by
  constructor <;> decide

/-- C9, amended: in `replyTweet` the decoding precedes the status check: for every
write-API response whose body is neither a JSON object nor the JSON value `null`,
`replyTweet` fails with the decode error whatever the status, and so it does for an
object that holds a number no `float64` holds; the status error is returned exactly
when the body decodes and the status is 400 or more, and a body that decodes is an
object or `null`; and whenever `replyTweet` fails, the one reply request was sent and
`wehbookHandler` answers 400. -/
theorem replyTweet_decode_before_status (getenv : String → String) (w : World)
    (envelope : Option Json) (rawData : List (String × Json)) (v : Json)
    (hook event0 : Val) (rest : List Val)
    (code : Nat) (body : Option Json) (dadJoke : Val) (code2 : Nat) (body2 : Option Json)
    (hraw : unmarshalMap envelope = some rawData)
    (hkey : ("tweet_create_events", v) ∈ rawData)
    (hhook : unmarshal TwitterMentionHook envelope = some hook)
    (hev : (hook.field "tweet_create_events").elems = event0 :: rest)
    (htrig : MatchString "\\#dadjoke\\b" (event0.field "text").str = true)
    (hget : w.get "https://icanhazdadjoke.com/" [("Accept", "application/json")] =
      .response code (.bytes body))
    (hcode : code < 400) (hjoke : unmarshal DadJoke body = some dadJoke)
    (hpost : w.postForm (twitterClient getenv) (getenv "TWITTER_BASE_URL" ++ "/statuses/update.json")
        [("status", "@" ++ ((event0.field "user").field "screen_name").str ++ " " ++
            (dadJoke.field "joke").str),
         ("in_reply_to_status_id", (event0.field "id_str").str)] =
          .response code2 (.bytes body2)) :
    ((∀ fields, body2 ≠ some (.obj fields)) → body2 ≠ some .null →
      (replyTweet getenv w
        ("@" ++ ((event0.field "user").field "screen_name").str ++ " " ++ (dadJoke.field "joke").str)
        (event0.field "id_str").str).1 = some .decode) ∧
    (∀ fields, body2 = some (.obj fields) → interfaceOkFields fields = false →
      (replyTweet getenv w
        ("@" ++ ((event0.field "user").field "screen_name").str ++ " " ++ (dadJoke.field "joke").str)
        (event0.field "id_str").str).1 = some .decode) ∧
    (∀ c, (replyTweet getenv w
        ("@" ++ ((event0.field "user").field "screen_name").str ++ " " ++ (dadJoke.field "joke").str)
        (event0.field "id_str").str).1 = some (.statusCode c) ↔
      (c = code2 ∧ 400 ≤ code2 ∧ ∃ m, unmarshalMap body2 = some m)) ∧
    (∀ m, unmarshalMap body2 = some m →
      (∃ fields, body2 = some (.obj fields)) ∨ body2 = some .null) ∧
    (∀ e, (replyTweet getenv w
        ("@" ++ ((event0.field "user").field "screen_name").str ++ " " ++ (dadJoke.field "joke").str)
        (event0.field "id_str").str).1 = some e →
      wehbookHandler getenv w (.bytes envelope) =
        ⟨.responded (badRequest "failed to replay tweet"),
          [Call.get "https://icanhazdadjoke.com/" [("Accept", "application/json")],
           Call.postForm (twitterClient getenv)
            (getenv "TWITTER_BASE_URL" ++ "/statuses/update.json")
            [("status", "@" ++ ((event0.field "user").field "screen_name").str ++ " " ++
                (dadJoke.field "joke").str),
             ("in_reply_to_status_id", (event0.field "id_str").str)]]⟩) := by
  have hr := replyTweet_of_response getenv w _ _ code2 body2 hpost
  refine ⟨fun hobj hnull => ?_, fun fields hb hov => ?_, fun c => ?_, fun m hm => ?_,
    fun e he => ?_⟩
  · rw [hr, unmarshalMap_eq_none body2 hobj hnull]
  · rw [hr, hb, unmarshalMap_overflow fields hov]
  · rw [hr]
    constructor
    · intro h
      cases hm : unmarshalMap body2 with
      | none => rw [hm] at h; simp at h
      | some m =>
        rw [hm] at h
        simp only [] at h
        by_cases hc : code2 ≥ 400
        · rw [if_pos hc] at h
          injection h with h1
          injection h1 with h2
          exact ⟨h2.symm, hc, m, rfl⟩
        · rw [if_neg hc] at h
          exact absurd h (by simp)
    · rintro ⟨hc, h400, m, hm⟩
      rw [hm, hc]
      simp only []
      rw [if_pos h400]
  · rcases unmarshalMap_some_cases body2 m hm with ⟨hb, _⟩ | ⟨hb, _⟩
    · exact Or.inl ⟨m, hb⟩
    · exact Or.inr hb
  · rw [wehbookHandler_fetched getenv w envelope rawData v hook event0 rest code body dadJoke
      hraw hkey hhook hev htrig hget hcode hjoke, he]
    rfl

theorem replyTweet_decode_before_status_witness :
    (replyTweet sampleEnv (sampleWorld 200 503 none)
        "@alice I used to hate facial hair, but then it grew on me." "12").1 = some .decode ∧
    wehbookHandler sampleEnv (sampleWorld 200 503 none)
        (.bytes (some (.obj (sampleEnvelope "check out #dadjoke please")))) =
      ⟨.responded (badRequest "failed to replay tweet"),
        [Call.get "https://icanhazdadjoke.com/" [("Accept", "application/json")],
         Call.postForm
          { consumerKey := "abc", consumerSecret := "abc", accessToken := "abc",
            accessSecret := "abc" }
          "https://api.twitter.com/1.1/statuses/update.json"
          [("status", "@alice I used to hate facial hair, but then it grew on me."),
           ("in_reply_to_status_id", "12")]]⟩ := by
  have h := replyTweet_decode_before_status sampleEnv (sampleWorld 200 503 none)
    (some (.obj (sampleEnvelope "check out #dadjoke please")))
    (sampleEnvelope "check out #dadjoke please")
    (.arr [sampleEvent "12" "alice" "check out #dadjoke please", sampleEvent "13" "bob" "again #dadjoke"])
    (sampleHook "check out #dadjoke please") (sampleFirst "check out #dadjoke please")
    (((sampleHook "check out #dadjoke please").field "tweet_create_events").elems.tail)
    200 (some sampleJoke) sampleDadJoke 503 none
    rfl (by simp [sampleEnvelope]) rfl rfl (by decide) rfl (by decide) rfl rfl
  have h1 := h.1 (fun fields => by simp) (by simp)
  exact ⟨h1, h.2.2.2.2 .decode h1⟩

end DadJokeBot
